import Mathlib

/-!
Shallow embedding of the cost-computation, leasing-rule-resolution and
fuel-price-aggregation core of the leasing calculator (`src/app.py`).

Numbers are modelled as rationals (`ℚ`); Python's `round(x, n)` half-to-even
rounding is modelled by `pyRoundInt` / `round2` / `round3`; Python's
`math.floor` is `Int.floor`; `str.lower()` is `lowerString` (ASCII lowering,
which agrees with Python on every fuel-kind string the program uses);
fallible operations return `Except` or an explicit outcome type.
-/

/-- Python's rounding to the nearest integer with ties to even (banker's
rounding), as applied by `round(x, n)` after scaling by `10^n`. -/
def pyRoundInt (q : ℚ) : ℤ :=
  if q - ⌊q⌋ < 1/2 then ⌊q⌋
  else if 1/2 < q - ⌊q⌋ then ⌊q⌋ + 1
  else if 2 ∣ ⌊q⌋ then ⌊q⌋ else ⌊q⌋ + 1

/-- `round(x, 2)` from the source, on rationals. -/
def round2 (q : ℚ) : ℚ := (pyRoundInt (q * 100) : ℚ) / 100

/-- `round(x, 3)` from the source, on rationals. -/
def round3 (q : ℚ) : ℚ := (pyRoundInt (q * 1000) : ℚ) / 1000

/-- ASCII lowercase of one character, modelling Python's `str.lower()` on the
ASCII strings the program compares against. -/
def lowerChar (c : Char) : Char :=
  if 65 ≤ c.toNat ∧ c.toNat ≤ 90 then Char.ofNat (c.toNat + 32) else c

/-- ASCII lowercase of a string: `str(row["Kraftstoff"]).lower()`. -/
def lowerString (s : String) : String := ⟨s.data.map lowerChar⟩

/-- `spritpreise.get(key, 0.0)`: first-match lookup in the price table with
default `0`. -/
def spGet (sp : List (String × ℚ)) (k : String) : ℚ :=
  match sp with
  | [] => 0
  | (k1, v) :: rest => if k = k1 then v else spGet rest k

/-- One row of the ranking collection as consumed by `berechne_kosten`
(`src/app.py`, lines 290-313): exactly the columns the computation reads. -/
structure Row where
  Kraftstoff : String
  UVP : ℚ
  Laufzeit_Monate : ℤ
  Freikilometer : ℚ
  Leasingrate_Faktor : ℚ
  Verbrauch_L_100 : ℚ
  Verbrauch_kWh_100 : ℚ
  Sprit : String
deriving DecidableEq

/-- The fields of the `pd.Series` returned by `berechne_kosten`
(`src/app.py`, lines 339-385). -/
structure Kosten where
  leasingMonat : ℚ
  leasingGesamt : ℚ
  geldwertMonat : ℚ
  steuerMonat : ℚ
  spritMonat : ℚ
  spritGesamt : ℚ
  gesamtMonat : ℚ
  kostenGesamt : ℚ
deriving DecidableEq

/-- `geldwerter_vorteil_berechnen` (`src/app.py`, lines 315-331): returns the
monthly benefit in kind and the monthly tax surcharge (one third of it).
Non-zero only for `benzin` / `diesel` vehicles with rate fraction below 1%. -/
def geldwerter_vorteil_berechnen (row : Row) : ℚ × ℚ :=
  let kraftstoff := lowerString row.Kraftstoff
  if ¬(kraftstoff = "benzin" ∨ kraftstoff = "diesel") then (0, 0)
  else if 1/100 ≤ row.Leasingrate_Faktor then (0, 0)
  else
    let private_nutzung : ℤ := ⌊row.UVP * (1/100)⌋
    let leasingrate_abs := row.UVP * row.Leasingrate_Faktor
    let geldwerter_vorteil := max ((private_nutzung : ℚ) - leasingrate_abs) 0
    (geldwerter_vorteil, geldwerter_vorteil / 3)

/-- The exact (unrounded) monthly leasing cost `leasingkosten_pro_monat`
(`src/app.py`, lines 333-335): base rate plus tax surcharge. -/
def leasing_monat_exakt (row : Row) : ℚ :=
  row.UVP * row.Leasingrate_Faktor + (geldwerter_vorteil_berechnen row).2

/-- The exact (unrounded) monthly fuel cost `spritkosten_pro_monat`
(`src/app.py`, lines 352-367), dispatching on the lower-cased fuel kind. -/
def sprit_monat_exakt (sp : List (String × ℚ)) (row : Row) : ℚ :=
  let kraftstoff := lowerString row.Kraftstoff
  let laufzeit : ℚ := (row.Laufzeit_Monate : ℚ)
  if kraftstoff = "benzin" ∨ kraftstoff = "diesel" then
    row.Freikilometer / 100 * row.Verbrauch_L_100 * spGet sp row.Sprit / laufzeit
  else if kraftstoff = "elektro" then
    row.Freikilometer / 100 * row.Verbrauch_kWh_100 * spGet sp "Strom" / laufzeit
  else if kraftstoff = "elektro/hybrid" ∨ kraftstoff = "hybrid" then
    row.Freikilometer / 100 * row.Verbrauch_L_100 * spGet sp row.Sprit / laufzeit
      + row.Freikilometer / 100 * row.Verbrauch_kWh_100 * spGet sp "Strom" / laufzeit
  else 0

/-- `berechne_kosten` (`src/app.py`, lines 290-385): full cost record for one
ranking row against a price table, with the degenerate branch for
`Laufzeit_Monate ≤ 0` and 2-decimal rounding applied only at the end. -/
def berechne_kosten (sp : List (String × ℚ)) (row : Row) : Kosten :=
  let gv := geldwerter_vorteil_berechnen row
  let leasingkosten_pro_monat := row.UVP * row.Leasingrate_Faktor + gv.2
  if row.Laufzeit_Monate ≤ 0 then
    { leasingMonat := round2 leasingkosten_pro_monat
      leasingGesamt := 0
      geldwertMonat := round2 gv.1
      steuerMonat := round2 gv.2
      spritMonat := 0
      spritGesamt := 0
      gesamtMonat := round2 leasingkosten_pro_monat
      kostenGesamt := 0 }
  else
    let spritkosten_pro_monat := sprit_monat_exakt sp row
    let laufzeit : ℚ := (row.Laufzeit_Monate : ℚ)
    let leasingkosten_gesamt := leasingkosten_pro_monat * laufzeit
    let spritkosten_gesamt := spritkosten_pro_monat * laufzeit
    let gesamtkosten_pro_monat := leasingkosten_pro_monat + spritkosten_pro_monat
    let kosten_gesamt := gesamtkosten_pro_monat * laufzeit
    { leasingMonat := round2 leasingkosten_pro_monat
      leasingGesamt := round2 leasingkosten_gesamt
      geldwertMonat := round2 gv.1
      steuerMonat := round2 gv.2
      spritMonat := round2 spritkosten_pro_monat
      spritGesamt := round2 spritkosten_gesamt
      gesamtMonat := round2 gesamtkosten_pro_monat
      kostenGesamt := round2 kosten_gesamt }

/-- One row of the leasing-rule table: the two applicability columns
`Bedingung Kraftstoff` and `Bedingung Modell` read by the resolver. -/
structure LeasingRule where
  bedingung_kraftstoff : String
  bedingung_modell : String
deriving DecidableEq

/-- `find_leasing_bedingung` (`src/app.py`, lines 61-88): exact match, then
category-wide `"Rest"`, then the original pair unchanged. -/
def find_leasing_bedingung (leasing_df : List LeasingRule) (kategorie modell : String) :
    String × String :=
  if leasing_df.any fun r => r.bedingung_kraftstoff == kategorie && r.bedingung_modell == modell
  then (kategorie, modell)
  else if leasing_df.any fun r => r.bedingung_kraftstoff == kategorie && r.bedingung_modell == "Rest"
  then (kategorie, "Rest")
  else (kategorie, modell)

/-- One station snapshot from the price feed: open/closed status and the three
nullable per-fuel prices used by the aggregator. -/
structure StationInfo where
  status : String
  e5 : Option ℚ
  e10 : Option ℚ
  diesel : Option ℚ
deriving DecidableEq

/-- The possible outcomes of the external interactions inside
`get_fuel_prices` (`src/app.py`, lines 216-254): the local station list fails
to load, no station ids are present, the HTTP request / JSON parse / status
check raises, or a response arrives carrying an `ok` flag and a price map. -/
inductive FetchOutcome where
  | stations_error : FetchOutcome
  | no_ids : FetchOutcome
  | request_error : FetchOutcome
  | response (ok : Bool) (prices : List (String × StationInfo)) : FetchOutcome
deriving DecidableEq

/-- `get_fuel_prices` (`src/app.py`, lines 216-254): every failure mode
collapses to the empty map; a not-ok feed gives the empty map; otherwise only
stations with `status == "open"` are kept. -/
def get_fuel_prices : FetchOutcome → List (String × StationInfo)
  | .stations_error => []
  | .no_ids => []
  | .request_error => []
  | .response ok prices =>
      if ok then prices.filter fun p => p.2.status == "open" else []

/-- Per-fuel min/avg/max statistics; `none` encodes the Python `None`. -/
structure FuelAgg where
  minVal : Option ℚ
  avgVal : Option ℚ
  maxVal : Option ℚ
deriving DecidableEq

/-- The statistics record built by `get_fuel_stats`, one `FuelAgg` for each
of the fuels `e5`, `e10`, `diesel`. -/
structure FuelStats where
  e5 : FuelAgg
  e10 : FuelAgg
  diesel : FuelAgg
deriving DecidableEq

/-- The per-fuel aggregation loop body of `get_fuel_stats` (`src/app.py`,
lines 273-286): round each present value to 3 decimals, then take min,
3-decimal-rounded mean, and max; all `none` when no value is present. -/
def aggregate_values (raw : List ℚ) : FuelAgg :=
  let values := raw.map round3
  match values with
  | [] => ⟨none, none, none⟩
  | x :: xs =>
      ⟨some (xs.foldl min x),
       some (round3 ((x :: xs).sum / ((x :: xs).length : ℚ))),
       some (xs.foldl max x)⟩

/-- `get_fuel_stats` (`src/app.py`, lines 257-287): raises `RuntimeError`
(modelled as `Except.error`) when `get_fuel_prices` returned no stations,
otherwise aggregates the three fuels over the open stations. -/
def get_fuel_stats (o : FetchOutcome) : Except String FuelStats :=
  let prices := get_fuel_prices o
  if prices.isEmpty then .error "Keine Preise von Tankerkönig erhalten."
  else .ok
    { e5 := aggregate_values (prices.filterMap fun p => p.2.e5)
      e10 := aggregate_values (prices.filterMap fun p => p.2.e10)
      diesel := aggregate_values (prices.filterMap fun p => p.2.diesel) }

/-- The tier slice `fuel_stats.get(stats_key, {})` of the statistics
(`src/app.py`, line 549): per-fuel optional prices for one of min/avg/max. -/
structure TierPrices where
  e5 : Option ℚ
  e10 : Option ℚ
  diesel : Option ℚ
deriving DecidableEq

/-- Selects the tier named by `stats_key` from the statistics record; an
unknown key yields the empty slice, as `dict.get(key, {})` would. -/
def select_tier (s : FuelStats) (stats_key : String) : TierPrices :=
  if stats_key = "min" then ⟨s.e5.minVal, s.e10.minVal, s.diesel.minVal⟩
  else if stats_key = "avg" then ⟨s.e5.avgVal, s.e10.avgVal, s.diesel.avgVal⟩
  else if stats_key = "max" then ⟨s.e5.maxVal, s.e10.maxVal, s.diesel.maxVal⟩
  else ⟨none, none, none⟩

/-- The `"min"` row of `all_fallback_spritpreise` (`src/app.py`, lines 489-508). -/
def fallback_min (fuel : String) : ℚ :=
  if fuel = "Super E10" then 168/100
  else if fuel = "Super E5" then 175/100
  else if fuel = "Super+" then 195/100
  else if fuel = "Diesel" then 155/100
  else 0

/-- The `"avg"` row of `all_fallback_spritpreise` (`src/app.py`, lines 489-508). -/
def fallback_avg (fuel : String) : ℚ :=
  if fuel = "Super E10" then 178/100
  else if fuel = "Super E5" then 185/100
  else if fuel = "Super+" then 205/100
  else if fuel = "Diesel" then 165/100
  else 0

/-- The `"max"` row of `all_fallback_spritpreise` (`src/app.py`, lines 489-508). -/
def fallback_max (fuel : String) : ℚ :=
  if fuel = "Super E10" then 188/100
  else if fuel = "Super E5" then 195/100
  else if fuel = "Super+" then 215/100
  else if fuel = "Diesel" then 175/100
  else 0

/-- `all_fallback_spritpreise.get(stats_key, all_fallback_spritpreise["avg"])`
(`src/app.py`, lines 542-545). -/
def fallback_spritpreise (stats_key : String) : String → ℚ :=
  if stats_key = "min" then fallback_min
  else if stats_key = "avg" then fallback_avg
  else if stats_key = "max" then fallback_max
  else fallback_avg

/-- The Python truthiness merge `live or fallback` used on lines 552-554 of
`src/app.py`: `None` and `0.0` both fall back, any other value is kept. -/
def truthy_or (v : Option ℚ) (fb : ℚ) : ℚ :=
  match v with
  | none => fb
  | some x => if x = 0 then fb else x

/-- The construction of the global `spritpreise` table (`src/app.py`, lines
547-572): on success, per-fuel truthiness fallback and `Super+` derived from
`Super E5` plus `0.10`; on failure, the tier's static fallback row plus the
user-set `Strom` price. -/
def build_spritpreise (stats : Except String FuelStats) (stats_key : String) (strom : ℚ) :
    List (String × ℚ) :=
  let fb := fallback_spritpreise stats_key
  match stats with
  | .ok s =>
      let t := select_tier s stats_key
      let e10_price := truthy_or t.e10 (fb "Super E10")
      let e5_price := truthy_or t.e5 (fb "Super E5")
      let diesel_price := truthy_or t.diesel (fb "Diesel")
      let super_plus_price := e5_price + 1/10
      [("Super E10", e10_price), ("Super E5", e5_price), ("Super+", super_plus_price),
       ("Diesel", diesel_price), ("Strom", strom)]
  | .error _ =>
      [("Super E10", fb "Super E10"), ("Super E5", fb "Super E5"), ("Super+", fb "Super+"),
       ("Diesel", fb "Diesel"), ("Strom", strom)]

/-- The two columns of a computed ranking row that the sort on line 628 of
`src/app.py` can observe: the sort key `Gesamtkosten / Monat` and the list
price `UVP` the specification names as tie-break. -/
structure RankRow where
  gesamtkosten_monat : ℚ
  uvp : ℚ
deriving DecidableEq

/-- The comparison used by `sort_values("Gesamtkosten / Monat")`: the monthly
combined cost alone. -/
def rankLE (a b : RankRow) : Prop := a.gesamtkosten_monat ≤ b.gesamtkosten_monat

instance : DecidableRel rankLE :=
  fun a b => inferInstanceAs (Decidable (a.gesamtkosten_monat ≤ b.gesamtkosten_monat))

instance : IsTotal RankRow rankLE :=
  ⟨fun a b => le_total a.gesamtkosten_monat b.gesamtkosten_monat⟩

instance : IsTrans RankRow rankLE :=
  ⟨fun _ _ _ hab hbc => le_trans hab hbc⟩

/-- `ranking_df.sort_values("Gesamtkosten / Monat", ascending=True)`
(`src/app.py`, line 628), modelled as a stable sort on the single key; the
input list is left untouched and a fresh ordered list is returned. -/
def ranking_df (l : List RankRow) : List RankRow := List.insertionSort rankLE l

/-! ## Theorems -/

/-- C4: for every rule set, category and model, `find_leasing_bedingung` is a
pure function returning the exact `(category, model)` partition when one
exists, otherwise `(category, "Rest")` when that partition exists, otherwise
the original pair unchanged — first match wins, in that order. -/
theorem find_leasing_bedingung_spec (df : List LeasingRule) (k m : String) :
    ((∃ r ∈ df, r.bedingung_kraftstoff = k ∧ r.bedingung_modell = m) →
      find_leasing_bedingung df k m = (k, m))
    ∧ (¬(∃ r ∈ df, r.bedingung_kraftstoff = k ∧ r.bedingung_modell = m) →
        (∃ r ∈ df, r.bedingung_kraftstoff = k ∧ r.bedingung_modell = "Rest") →
        find_leasing_bedingung df k m = (k, "Rest"))
    ∧ (¬(∃ r ∈ df, r.bedingung_kraftstoff = k ∧ r.bedingung_modell = m) →
        ¬(∃ r ∈ df, r.bedingung_kraftstoff = k ∧ r.bedingung_modell = "Rest") →
        find_leasing_bedingung df k m = (k, m)) := by
  have hany : ∀ mm : String,
      (df.any fun r => r.bedingung_kraftstoff == k && r.bedingung_modell == mm) = true ↔
        ∃ r ∈ df, r.bedingung_kraftstoff = k ∧ r.bedingung_modell = mm := by
    intro mm; simp
  unfold find_leasing_bedingung
  split_ifs with hx hr
  · exact ⟨fun _ => rfl, fun hne _ => absurd ((hany m).mp hx) hne, fun _ _ => rfl⟩
  · exact ⟨fun h => absurd ((hany m).mpr h) hx, fun _ _ => rfl,
      fun _ hnr => absurd ((hany "Rest").mp hr) hnr⟩
  · exact ⟨fun _ => rfl, fun _ hrest => absurd ((hany "Rest").mpr hrest) hr, fun _ _ => rfl⟩

/-- Witness for C4: with only the `("Verbrenner", "Rest")` partition present,
the resolver maps `("Verbrenner", "UnknownModel")` to `("Verbrenner", "Rest")`. -/
theorem find_leasing_bedingung_spec_witness :
    find_leasing_bedingung [⟨"Verbrenner", "Rest"⟩] "Verbrenner" "UnknownModel" =
      ("Verbrenner", "Rest") := by
  refine (find_leasing_bedingung_spec [⟨"Verbrenner", "Rest"⟩] "Verbrenner" "UnknownModel").2.1
    ?_ ?_
  · rintro ⟨r, hr, -, h2⟩
    simp only [List.mem_singleton] at hr
    subst hr
    exact absurd h2 (by decide)
  · exact ⟨⟨"Verbrenner", "Rest"⟩, by simp, rfl, rfl⟩

/-- C7: `get_fuel_prices` never raises — every failure mode (station list,
network/parse/authorization, not-ok feed) yields the empty map — and on a
successful ok response it returns exactly the readings of stations whose
status is `"open"`. -/
theorem get_fuel_prices_spec (o : FetchOutcome) (ps : List (String × StationInfo)) :
    get_fuel_prices .stations_error = []
    ∧ get_fuel_prices .no_ids = []
    ∧ get_fuel_prices .request_error = []
    ∧ get_fuel_prices (.response false ps) = []
    ∧ get_fuel_prices (.response true ps) = (ps.filter fun p => p.2.status == "open")
    ∧ (∀ p ∈ get_fuel_prices o, p.2.status = "open") := by
  refine ⟨rfl, rfl, rfl, rfl, rfl, ?_⟩
  cases o with
  | stations_error => simp [get_fuel_prices]
  | no_ids => simp [get_fuel_prices]
  | request_error => simp [get_fuel_prices]
  | response ok prices =>
      cases ok
      · simp [get_fuel_prices]
      · intro p hp
        simp only [get_fuel_prices, if_true, List.mem_filter, beq_iff_eq] at hp
        exact hp.2

/-- Witness for C7: on an ok response with one open and one closed station,
the open one is returned and its status is `"open"`. -/
theorem get_fuel_prices_spec_witness :
    (⟨"s1", "open", some 1, some 1, some 1⟩ : String × StationInfo).2.status = "open" :=
  (get_fuel_prices_spec
      (.response true [⟨"s1", "open", some 1, some 1, some 1⟩,
        ⟨"s2", "closed", none, none, none⟩]) []).2.2.2.2.2
    ⟨"s1", "open", some 1, some 1, some 1⟩ (by simp [get_fuel_prices])

/-- Counterexample to C6: the sort on line 628 keys only on
`Gesamtkosten / Monat`; with two rows of equal monthly combined cost the
row with the larger `UVP` stays first, so ties are not broken by list
price ascending. -/
theorem ranking_tiebreak_gegenbeispiel :
    ranking_df [⟨5, 200⟩, ⟨5, 100⟩] = [⟨5, 200⟩, ⟨5, 100⟩]
    ∧ (⟨5, 200⟩ : RankRow).gesamtkosten_monat = (⟨5, 100⟩ : RankRow).gesamtkosten_monat
    ∧ (⟨5, 100⟩ : RankRow).uvp < (⟨5, 200⟩ : RankRow).uvp := by
  refine ⟨?_, rfl, by norm_num⟩
  simp [ranking_df, List.insertionSort, List.orderedInsert, rankLE]

/-- C6 amended: the ranking sorts by combined cost per month ascending
(stable, so ties keep their insertion order; list price is not consulted)
and returns a fresh list that is a permutation of the input, which is left
unchanged. -/
theorem ranking_sortiert_permutation (l : List RankRow) :
    List.Sorted rankLE (ranking_df l) ∧ (ranking_df l).Perm l :=
  ⟨List.sorted_insertionSort rankLE l, List.perm_insertionSort rankLE l⟩

/-- Evaluation helper: rounding zero to two decimals gives zero. -/
theorem round2_zero : round2 0 = 0 := by norm_num [round2, pyRoundInt]

/-- Unfolding helper for the price-table lookup on a cons cell. -/
theorem spGet_cons (k k1 : String) (v : ℚ) (rest : List (String × ℚ)) :
    spGet ((k1, v) :: rest) k = if k = k1 then v else spGet rest k := rfl

/-- C1: the benefit-in-kind surcharge is `0` unless the (lower-cased) fuel kind
is benzin/diesel with rate fraction below `1/100`; in that case it equals
`max(⌊listPrice/100⌋ − listPrice·rateFraction, 0) / 3`, and the effective
monthly leasing cost `base + surcharge` feeds every downstream total. -/
theorem geldwerter_vorteil_korrekt (sp : List (String × ℚ)) (row : Row) :
    ((¬(lowerString row.Kraftstoff = "benzin" ∨ lowerString row.Kraftstoff = "diesel")
        ∨ 1/100 ≤ row.Leasingrate_Faktor) →
      (geldwerter_vorteil_berechnen row).2 = 0)
    ∧ ((lowerString row.Kraftstoff = "benzin" ∨ lowerString row.Kraftstoff = "diesel") →
        row.Leasingrate_Faktor < 1/100 →
        (geldwerter_vorteil_berechnen row).2 =
          max ((⌊row.UVP * (1/100)⌋ : ℚ) - row.UVP * row.Leasingrate_Faktor) 0 / 3)
    ∧ leasing_monat_exakt row =
        row.UVP * row.Leasingrate_Faktor + (geldwerter_vorteil_berechnen row).2
    ∧ (0 < row.Laufzeit_Monate →
        (berechne_kosten sp row).leasingMonat = round2 (leasing_monat_exakt row)
        ∧ (berechne_kosten sp row).leasingGesamt =
            round2 (leasing_monat_exakt row * (row.Laufzeit_Monate : ℚ))
        ∧ (berechne_kosten sp row).gesamtMonat =
            round2 (leasing_monat_exakt row + sprit_monat_exakt sp row)
        ∧ (berechne_kosten sp row).kostenGesamt =
            round2 ((leasing_monat_exakt row + sprit_monat_exakt sp row) *
              (row.Laufzeit_Monate : ℚ))) := by
  refine ⟨?_, ?_, rfl, ?_⟩
  · intro h
    simp only [geldwerter_vorteil_berechnen]
    by_cases hd : lowerString row.Kraftstoff = "benzin" ∨ lowerString row.Kraftstoff = "diesel"
    · rw [if_neg (not_not.mpr hd)]
      rcases h with h | h
      · exact absurd hd h
      · rw [if_pos h]
    · rw [if_pos hd]
  · intro hk hr
    simp only [geldwerter_vorteil_berechnen]
    rw [if_neg (not_not.mpr hk), if_neg (not_le.mpr hr)]
  · intro ht
    simp only [berechne_kosten]
    rw [if_neg (not_le.mpr ht)]
    exact ⟨rfl, rfl, rfl, rfl⟩

/-- Witness for C1, Scenario A of the spec: list price 30000, rate fraction
0.009 on a Benzin vehicle gives a monthly tax surcharge of 10. -/
theorem geldwerter_vorteil_korrekt_witness :
    (geldwerter_vorteil_berechnen
        ⟨"Benzin", 30000, 12, 15000, 9/1000, 6, 0, "Super E5"⟩).2 = 10 := by
  have h := (geldwerter_vorteil_korrekt [("Super E5", 9/5)]
      ⟨"Benzin", 30000, 12, 15000, 9/1000, 6, 0, "Super E5"⟩).2.1
    (Or.inl (by decide)) (by norm_num)
  rw [h]
  norm_num [max_def]

/-- C2: for positive term the reported monthly fuel cost is the 2-decimal
rounding of the fuel-kind-dependent formula — combustion term for
benzin/diesel, electric term for elektro, their sum for (elektro/)hybrid —
and exactly `0` for any unrecognized fuel kind. -/
theorem spritkosten_korrekt (sp : List (String × ℚ)) (row : Row)
    (ht : 0 < row.Laufzeit_Monate) :
    ((lowerString row.Kraftstoff = "benzin" ∨ lowerString row.Kraftstoff = "diesel") →
      (berechne_kosten sp row).spritMonat =
        round2 (row.Freikilometer / 100 * row.Verbrauch_L_100 * spGet sp row.Sprit /
          (row.Laufzeit_Monate : ℚ)))
    ∧ (lowerString row.Kraftstoff = "elektro" →
      (berechne_kosten sp row).spritMonat =
        round2 (row.Freikilometer / 100 * row.Verbrauch_kWh_100 * spGet sp "Strom" /
          (row.Laufzeit_Monate : ℚ)))
    ∧ ((lowerString row.Kraftstoff = "elektro/hybrid" ∨ lowerString row.Kraftstoff = "hybrid") →
      (berechne_kosten sp row).spritMonat =
        round2 (row.Freikilometer / 100 * row.Verbrauch_L_100 * spGet sp row.Sprit /
            (row.Laufzeit_Monate : ℚ)
          + row.Freikilometer / 100 * row.Verbrauch_kWh_100 * spGet sp "Strom" /
            (row.Laufzeit_Monate : ℚ)))
    ∧ (lowerString row.Kraftstoff ≠ "benzin" → lowerString row.Kraftstoff ≠ "diesel" →
        lowerString row.Kraftstoff ≠ "elektro" → lowerString row.Kraftstoff ≠ "elektro/hybrid" →
        lowerString row.Kraftstoff ≠ "hybrid" →
      (berechne_kosten sp row).spritMonat = 0) := by
  have hb : (berechne_kosten sp row).spritMonat = round2 (sprit_monat_exakt sp row) := by
    simp only [berechne_kosten]
    rw [if_neg (not_le.mpr ht)]
  refine ⟨?_, ?_, ?_, ?_⟩
  · intro hk
    rw [hb]
    simp only [sprit_monat_exakt]
    rw [if_pos hk]
  · intro hk
    rw [hb]
    simp only [sprit_monat_exakt]
    rw [if_neg (by rw [hk]; decide), if_pos hk]
  · intro hk
    rw [hb]
    simp only [sprit_monat_exakt]
    rcases hk with hk | hk
    · rw [if_neg (by rw [hk]; decide), if_neg (by rw [hk]; decide), if_pos (Or.inl hk)]
    · rw [if_neg (by rw [hk]; decide), if_neg (by rw [hk]; decide), if_pos (Or.inr hk)]
  · intro h1 h2 h3 h4 h5
    rw [hb]
    simp only [sprit_monat_exakt]
    rw [if_neg (not_or.mpr ⟨h1, h2⟩), if_neg h3, if_neg (not_or.mpr ⟨h4, h5⟩)]
    exact round2_zero

/-- Witness for C2, Scenario C of the spec: a hybrid with 1.5 L/100km at 1.85,
14 kWh/100km at 0.30, mileage 10000 over term 6 has monthly fuel cost 116.25. -/
theorem spritkosten_korrekt_witness :
    (berechne_kosten [("Super E5", 37/20), ("Strom", 3/10)]
        ⟨"Hybrid", 30000, 6, 10000, 9/1000, 3/2, 14, "Super E5"⟩).spritMonat = 465/4 := by
  have h := (spritkosten_korrekt [("Super E5", 37/20), ("Strom", 3/10)]
      ⟨"Hybrid", 30000, 6, 10000, 9/1000, 3/2, 14, "Super E5"⟩ (by decide)).2.2.1
    (Or.inr (by decide))
  rw [h]
  rw [show spGet [("Super E5", 37/20), ("Strom", 3/10)] "Super E5" = 37/20 by
    rw [spGet_cons, if_pos rfl]]
  rw [show spGet [("Super E5", 37/20), ("Strom", 3/10)] "Strom" = 3/10 by
    rw [spGet_cons, if_neg (by decide), spGet_cons, if_pos rfl]]
  norm_num [round2, pyRoundInt]

/-- C3: for non-positive contract term the calculator returns a defined
result with fuel cost and every total equal to `0`, and a monthly leasing
cost of `round2(listPrice · rateFraction + surcharge)`. -/
theorem laufzeit_degeneriert (sp : List (String × ℚ)) (row : Row)
    (ht : row.Laufzeit_Monate ≤ 0) :
    (berechne_kosten sp row).spritMonat = 0
    ∧ (berechne_kosten sp row).spritGesamt = 0
    ∧ (berechne_kosten sp row).leasingGesamt = 0
    ∧ (berechne_kosten sp row).kostenGesamt = 0
    ∧ (berechne_kosten sp row).leasingMonat =
        round2 (row.UVP * row.Leasingrate_Faktor + (geldwerter_vorteil_berechnen row).2)
    ∧ (berechne_kosten sp row).gesamtMonat =
        round2 (row.UVP * row.Leasingrate_Faktor + (geldwerter_vorteil_berechnen row).2) := by
  simp only [berechne_kosten]
  rw [if_pos ht]
  exact ⟨rfl, rfl, rfl, rfl, rfl, rfl⟩

/-- Witness for C3, Scenario B of the spec: with term 0 all totals are `0`
while the monthly leasing figure is still computed (280 = 270 base + 10
surcharge for the Scenario A vehicle). -/
theorem laufzeit_degeneriert_witness :
    (berechne_kosten [] ⟨"Benzin", 30000, 0, 15000, 9/1000, 6, 0, "Super E5"⟩).kostenGesamt = 0
    ∧ (berechne_kosten [] ⟨"Benzin", 30000, 0, 15000, 9/1000, 6, 0, "Super E5"⟩).leasingMonat
        = 280 := by
  have h := laufzeit_degeneriert [] ⟨"Benzin", 30000, 0, 15000, 9/1000, 6, 0, "Super E5"⟩
    (by decide)
  refine ⟨h.2.2.2.1, ?_⟩
  rw [h.2.2.2.2.1]
  have hgv : (geldwerter_vorteil_berechnen
      ⟨"Benzin", 30000, 0, 15000, 9/1000, 6, 0, "Super E5"⟩).2 =
      max ((⌊(30000 : ℚ) * (1/100)⌋ : ℚ) - 30000 * (9/1000)) 0 / 3 := by
    simp only [geldwerter_vorteil_berechnen]
    rw [if_neg (not_not.mpr (Or.inl (by decide))), if_neg (by norm_num)]
  rw [hgv]
  norm_num [max_def, round2, pyRoundInt]

/-- Counterexample to C8: with one station reported and it closed (zero open
stations), `get_fuel_stats` does not return null statistics — it raises
`RuntimeError` (modelled as `Except.error`), which the caller catches to fall
back to the static constants. -/
theorem fuel_stats_leer_gegenbeispiel :
    get_fuel_prices (.response true [("a", ⟨"closed", none, none, none⟩)]) = []
    ∧ get_fuel_stats (.response true [("a", ⟨"closed", none, none, none⟩)]) =
        .error "Keine Preise von Tankerkönig erhalten." :=
  ⟨rfl, rfl⟩

/-- C8 amended: an empty reading set makes `get_fuel_stats` raise
`RuntimeError` (caught upstream to trigger the fallback constants); when the
reading set is non-empty, any fuel with no non-null value gets `none` for all
three of min/avg/max — not zero and not omitted. -/
theorem fuel_stats_amended (o : FetchOutcome) :
    (get_fuel_prices o = [] →
      get_fuel_stats o = .error "Keine Preise von Tankerkönig erhalten.")
    ∧ (∀ s : FuelStats, get_fuel_stats o = .ok s →
        (((get_fuel_prices o).filterMap fun p => p.2.e5) = [] → s.e5 = ⟨none, none, none⟩)
        ∧ (((get_fuel_prices o).filterMap fun p => p.2.e10) = [] → s.e10 = ⟨none, none, none⟩)
        ∧ (((get_fuel_prices o).filterMap fun p => p.2.diesel) = [] →
            s.diesel = ⟨none, none, none⟩)) := by
  constructor
  · intro h
    simp only [get_fuel_stats, h]
    rfl
  · intro s hs
    simp only [get_fuel_stats] at hs
    by_cases hp : (get_fuel_prices o).isEmpty
    · rw [if_pos hp] at hs
      exact absurd hs (by simp)
    · rw [if_neg hp] at hs
      injection hs with hs
      subst hs
      refine ⟨?_, ?_, ?_⟩ <;> intro h <;> simp [h, aggregate_values]

/-- Witness for C8 amended: one open station with every fuel price null gives
an ok statistics record whose e5 aggregate is all-null. -/
theorem fuel_stats_amended_witness :
    (⟨⟨none, none, none⟩, ⟨none, none, none⟩, ⟨none, none, none⟩⟩ : FuelStats).e5 =
      ⟨none, none, none⟩ :=
  ((fuel_stats_amended (.response true [("a", ⟨"open", none, none, none⟩)])).2
    ⟨⟨none, none, none⟩, ⟨none, none, none⟩, ⟨none, none, none⟩⟩ rfl).1 rfl

/-- Counterexample to C9: in a run where the stats fetch fails and the static
fallback table is used directly (tier `"min"`), `Super+` is 1.95 while
`Super E5` is 1.75 — an offset of 0.20, not 0.10. -/
theorem super_plus_fallback_gegenbeispiel :
    spGet (build_spritpreise (.error "err") "min" (3/10)) "Super+" = 195/100
    ∧ spGet (build_spritpreise (.error "err") "min" (3/10)) "Super E5" = 175/100
    ∧ (195/100 : ℚ) ≠ 175/100 + 1/10 :=
  ⟨rfl, rfl, by norm_num⟩

/-- C9 amended: whenever `get_fuel_stats` succeeds (even if individual fuels
fell back), the `Super+` entry is the `Super E5` entry plus 0.10; when the
stats fetch fails entirely, both entries come from the static table, where
`Super+` exceeds `Super E5` by 0.20 in every tier. -/
theorem super_plus_aufschlag (s : FuelStats) (stats_key msg : String) (strom : ℚ) :
    spGet (build_spritpreise (.ok s) stats_key strom) "Super+"
      = spGet (build_spritpreise (.ok s) stats_key strom) "Super E5" + 1/10
    ∧ (stats_key = "min" ∨ stats_key = "avg" ∨ stats_key = "max" →
        spGet (build_spritpreise (.error msg) stats_key strom) "Super+"
          = spGet (build_spritpreise (.error msg) stats_key strom) "Super E5" + 2/10) := by
  have n1 : ¬("Super+" = "Super E10") := by decide
  have n2 : ¬("Super+" = "Super E5") := by decide
  have n3 : ¬("Super E5" = "Super E10") := by decide
  have n7 : ¬("avg" = "min") := by decide
  have n8 : ¬("max" = "min") := by decide
  have n9 : ¬("max" = "avg") := by decide
  constructor
  · simp only [build_spritpreise, spGet_cons]
    simp [n1, n2, n3]
  · rintro (hk | hk | hk) <;> subst hk <;>
      simp only [build_spritpreise, fallback_spritpreise, spGet_cons] <;>
      simp [n1, n2, n3, n7, n8, n9, fallback_min, fallback_avg, fallback_max] <;>
      norm_num

/-- Witness for C9 amended: a concrete successful-stats run and concrete
failure runs in each named tier. -/
theorem super_plus_aufschlag_witness :
    spGet (build_spritpreise (.error "err") "avg" (3/10)) "Super+"
      = spGet (build_spritpreise (.error "err") "avg" (3/10)) "Super E5" + 2/10 :=
  (super_plus_aufschlag ⟨⟨none, none, none⟩, ⟨none, none, none⟩, ⟨none, none, none⟩⟩
    "avg" "err" (3/10)).2 (Or.inr (Or.inl rfl))

/-- C10: on the live path, a fetched tier value of exactly `0` is replaced by
the tier's fallback constant (the merge is a truthiness test), so each of the
three fetched fuels ends up either as a strictly positive live price or as
the fallback constant. -/
theorem preis_merge_truthiness (s : FuelStats) (stats_key : String) (strom : ℚ)
    (h10 : ∀ x : ℚ, (select_tier s stats_key).e10 = some x → 0 ≤ x)
    (h5 : ∀ x : ℚ, (select_tier s stats_key).e5 = some x → 0 ≤ x)
    (hd : ∀ x : ℚ, (select_tier s stats_key).diesel = some x → 0 ≤ x) :
    ((select_tier s stats_key).e10 = some 0 →
      spGet (build_spritpreise (.ok s) stats_key strom) "Super E10"
        = fallback_spritpreise stats_key "Super E10")
    ∧ (spGet (build_spritpreise (.ok s) stats_key strom) "Super E10"
          = fallback_spritpreise stats_key "Super E10"
        ∨ ∃ x : ℚ, (select_tier s stats_key).e10 = some x ∧ 0 < x
            ∧ spGet (build_spritpreise (.ok s) stats_key strom) "Super E10" = x)
    ∧ ((select_tier s stats_key).e5 = some 0 →
      spGet (build_spritpreise (.ok s) stats_key strom) "Super E5"
        = fallback_spritpreise stats_key "Super E5")
    ∧ (spGet (build_spritpreise (.ok s) stats_key strom) "Super E5"
          = fallback_spritpreise stats_key "Super E5"
        ∨ ∃ x : ℚ, (select_tier s stats_key).e5 = some x ∧ 0 < x
            ∧ spGet (build_spritpreise (.ok s) stats_key strom) "Super E5" = x)
    ∧ ((select_tier s stats_key).diesel = some 0 →
      spGet (build_spritpreise (.ok s) stats_key strom) "Diesel"
        = fallback_spritpreise stats_key "Diesel")
    ∧ (spGet (build_spritpreise (.ok s) stats_key strom) "Diesel"
          = fallback_spritpreise stats_key "Diesel"
        ∨ ∃ x : ℚ, (select_tier s stats_key).diesel = some x ∧ 0 < x
            ∧ spGet (build_spritpreise (.ok s) stats_key strom) "Diesel" = x) := by
  have n1 : ¬("Super E5" = "Super E10") := by decide
  have n2 : ¬("Diesel" = "Super E10") := by decide
  have n3 : ¬("Diesel" = "Super E5") := by decide
  have n4 : ¬("Diesel" = "Super+") := by decide
  have hg10 : spGet (build_spritpreise (.ok s) stats_key strom) "Super E10"
      = truthy_or (select_tier s stats_key).e10 (fallback_spritpreise stats_key "Super E10") := by
    simp only [build_spritpreise, spGet_cons]
    simp
  have hg5 : spGet (build_spritpreise (.ok s) stats_key strom) "Super E5"
      = truthy_or (select_tier s stats_key).e5 (fallback_spritpreise stats_key "Super E5") := by
    simp only [build_spritpreise, spGet_cons]
    simp [n1]
  have hgd : spGet (build_spritpreise (.ok s) stats_key strom) "Diesel"
      = truthy_or (select_tier s stats_key).diesel (fallback_spritpreise stats_key "Diesel") := by
    simp only [build_spritpreise, spGet_cons]
    simp [n2, n3, n4]
  have key : ∀ (v : Option ℚ) (fb : ℚ), (∀ x : ℚ, v = some x → 0 ≤ x) →
      (v = some 0 → truthy_or v fb = fb)
      ∧ (truthy_or v fb = fb ∨ ∃ x : ℚ, v = some x ∧ 0 < x ∧ truthy_or v fb = x) := by
    intro v fb hv
    constructor
    · intro h0
      subst h0
      simp [truthy_or]
    · cases v with
      | none => exact Or.inl rfl
      | some x =>
          by_cases hx : x = 0
          · subst hx
            exact Or.inl (by simp [truthy_or])
          · exact Or.inr ⟨x, rfl, lt_of_le_of_ne (hv x rfl) (Ne.symm hx),
              by simp [truthy_or, hx]⟩
  rw [hg10, hg5, hgd]
  exact ⟨(key _ _ h10).1, (key _ _ h10).2, (key _ _ h5).1, (key _ _ h5).2,
    (key _ _ hd).1, (key _ _ hd).2⟩

/-- Witness for C10: a min-tier slice with a live zero for e10, a live
positive price for e5 and a null diesel: the e10 entry is the fallback. -/
theorem preis_merge_truthiness_witness :
    spGet (build_spritpreise
        (.ok ⟨⟨some (18/10), none, none⟩, ⟨some 0, none, none⟩, ⟨none, none, none⟩⟩)
        "min" (3/10)) "Super E10"
      = fallback_spritpreise "min" "Super E10" :=
  (preis_merge_truthiness
      ⟨⟨some (18/10), none, none⟩, ⟨some 0, none, none⟩, ⟨none, none, none⟩⟩ "min" (3/10)
      (fun x hx => by
        simp only [select_tier, if_pos rfl] at hx
        injection hx with hx
        rw [← hx])
      (fun x hx => by
        simp only [select_tier, if_pos rfl] at hx
        injection hx with hx
        rw [← hx]
        norm_num)
      (fun x hx => by
        simp only [select_tier, if_pos rfl] at hx
        exact absurd hx (by simp))).1
    (by simp [select_tier])

/-- Rounding to the nearest integer moves a rational by at most one half. -/
theorem pyRoundInt_abs_le (q : ℚ) : |(pyRoundInt q : ℚ) - q| ≤ 1/2 := by
  have hfl : ((⌊q⌋ : ℤ) : ℚ) ≤ q := Int.floor_le q
  have hfu : q < ((⌊q⌋ : ℤ) : ℚ) + 1 := Int.lt_floor_add_one q
  unfold pyRoundInt
  split_ifs with h1 h2 h3
  · rw [abs_le]; constructor <;> linarith
  · rw [abs_le]; constructor <;> push_cast <;> linarith
  · rw [abs_le]; constructor <;> linarith
  · rw [abs_le]; constructor <;> push_cast <;> linarith

/-- Two-decimal rounding moves a rational by at most `1/200`. -/
theorem round2_abs_le (q : ℚ) : |round2 q - q| ≤ 1/200 := by
  have h := pyRoundInt_abs_le (q * 100)
  unfold round2
  rw [show (pyRoundInt (q * 100) : ℚ) / 100 - q = ((pyRoundInt (q * 100) : ℚ) - q * 100) / 100
    by ring]
  rw [abs_div, abs_of_pos (by norm_num : (0:ℚ) < 100)]
  linarith

/-- Counterexample to C5: for the record with list price 25, rate fraction
0.005 (rate 0.5), term 12 and an Elektro drivetrain with zero consumption,
the reported leasing total is 1.50 but the reported monthly figure times the
term is 0.12 × 12 = 1.44 — a discrepancy of 0.06, outside the claimed 0.01
tolerance. -/
theorem rundungstoleranz_gegenbeispiel :
    (berechne_kosten [] ⟨"Elektro", 25, 12, 0, 1/200, 0, 0, "Strom"⟩).leasingGesamt = 3/2
    ∧ (berechne_kosten [] ⟨"Elektro", 25, 12, 0, 1/200, 0, 0, "Strom"⟩).leasingMonat = 3/25
    ∧ ¬(|(3:ℚ)/2 - 3/25 * 12| ≤ 1/100) := by
  have hne : ¬((12:ℤ) ≤ 0) := by decide
  have hgv : (geldwerter_vorteil_berechnen ⟨"Elektro", 25, 12, 0, 1/200, 0, 0, "Strom"⟩).2 = 0 := by
    simp only [geldwerter_vorteil_berechnen]
    rw [if_pos (by decide)]
  refine ⟨?_, ?_, ?_⟩
  · simp only [berechne_kosten]
    rw [if_neg hne, hgv]
    norm_num [round2, pyRoundInt]
  · simp only [berechne_kosten]
    rw [if_neg hne, hgv]
    norm_num [round2, pyRoundInt]
  · rw [show (3:ℚ)/2 - 3/25 * 12 = 3/50 by norm_num,
      abs_of_pos (by norm_num : (0:ℚ) < 3/50)]
    norm_num

/-- C5 amended: for positive term every total is the 2-decimal rounding of
the exact monthly figure times the term (rounding happens only at reporting,
never during accumulation), and the reported total differs from the reported
monthly figure times the term by at most `(1 + term)/200` — a bound that can
exceed the claimed 0.01. -/
theorem gesamtsummen_rundungsschranke (sp : List (String × ℚ)) (row : Row)
    (ht : 0 < row.Laufzeit_Monate) :
    (berechne_kosten sp row).leasingGesamt =
        round2 (leasing_monat_exakt row * (row.Laufzeit_Monate : ℚ))
    ∧ (berechne_kosten sp row).spritGesamt =
        round2 (sprit_monat_exakt sp row * (row.Laufzeit_Monate : ℚ))
    ∧ (berechne_kosten sp row).kostenGesamt =
        round2 ((leasing_monat_exakt row + sprit_monat_exakt sp row) *
          (row.Laufzeit_Monate : ℚ))
    ∧ |(berechne_kosten sp row).leasingGesamt -
          (berechne_kosten sp row).leasingMonat * (row.Laufzeit_Monate : ℚ)|
        ≤ (1 + (row.Laufzeit_Monate : ℚ)) / 200
    ∧ |(berechne_kosten sp row).spritGesamt -
          (berechne_kosten sp row).spritMonat * (row.Laufzeit_Monate : ℚ)|
        ≤ (1 + (row.Laufzeit_Monate : ℚ)) / 200
    ∧ |(berechne_kosten sp row).kostenGesamt -
          (berechne_kosten sp row).gesamtMonat * (row.Laufzeit_Monate : ℚ)|
        ≤ (1 + (row.Laufzeit_Monate : ℚ)) / 200 := by
  have hne := not_le.mpr ht
  have htq : (0 : ℚ) < (row.Laufzeit_Monate : ℚ) := by exact_mod_cast ht
  have key : ∀ m : ℚ, |round2 (m * (row.Laufzeit_Monate : ℚ)) -
      round2 m * (row.Laufzeit_Monate : ℚ)| ≤ (1 + (row.Laufzeit_Monate : ℚ)) / 200 := by
    intro m
    have h1 := round2_abs_le (m * (row.Laufzeit_Monate : ℚ))
    have h2 := round2_abs_le m
    have hrw : round2 (m * (row.Laufzeit_Monate : ℚ)) - round2 m * (row.Laufzeit_Monate : ℚ)
        = (round2 (m * (row.Laufzeit_Monate : ℚ)) - m * (row.Laufzeit_Monate : ℚ))
          - (round2 m - m) * (row.Laufzeit_Monate : ℚ) := by ring
    rw [hrw]
    have habs := abs_sub (round2 (m * (row.Laufzeit_Monate : ℚ)) - m * (row.Laufzeit_Monate : ℚ))
      ((round2 m - m) * (row.Laufzeit_Monate : ℚ))
    have hbt : |(round2 m - m) * (row.Laufzeit_Monate : ℚ)|
        = |round2 m - m| * (row.Laufzeit_Monate : ℚ) := by
      rw [abs_mul, abs_of_pos htq]
    have hmul := mul_le_mul_of_nonneg_right h2 (le_of_lt htq)
    rw [hbt] at habs
    linarith
  have e1 : (berechne_kosten sp row).leasingMonat = round2 (leasing_monat_exakt row) := by
    simp only [berechne_kosten]
    rw [if_neg hne]
    rfl
  have e2 : (berechne_kosten sp row).leasingGesamt =
      round2 (leasing_monat_exakt row * (row.Laufzeit_Monate : ℚ)) := by
    simp only [berechne_kosten]
    rw [if_neg hne]
    rfl
  have e3 : (berechne_kosten sp row).spritMonat = round2 (sprit_monat_exakt sp row) := by
    simp only [berechne_kosten]
    rw [if_neg hne]
  have e4 : (berechne_kosten sp row).spritGesamt =
      round2 (sprit_monat_exakt sp row * (row.Laufzeit_Monate : ℚ)) := by
    simp only [berechne_kosten]
    rw [if_neg hne]
  have e5 : (berechne_kosten sp row).gesamtMonat =
      round2 (leasing_monat_exakt row + sprit_monat_exakt sp row) := by
    simp only [berechne_kosten]
    rw [if_neg hne]
    rfl
  have e6 : (berechne_kosten sp row).kostenGesamt =
      round2 ((leasing_monat_exakt row + sprit_monat_exakt sp row) *
        (row.Laufzeit_Monate : ℚ)) := by
    simp only [berechne_kosten]
    rw [if_neg hne]
    rfl
  exact ⟨e2, e4, e6,
    by rw [e2, e1]; exact key _,
    by rw [e4, e3]; exact key _,
    by rw [e6, e5]; exact key _⟩

/-- Witness for C5 amended: the rounding bound instantiated at the
counterexample record. -/
theorem gesamtsummen_rundungsschranke_witness :
    |(berechne_kosten [] ⟨"Elektro", 25, 12, 0, 1/200, 0, 0, "Strom"⟩).leasingGesamt -
        (berechne_kosten [] ⟨"Elektro", 25, 12, 0, 1/200, 0, 0, "Strom"⟩).leasingMonat *
          (((12:ℤ) : ℚ))|
      ≤ (1 + (((12:ℤ) : ℚ))) / 200 :=
  (gesamtsummen_rundungsschranke [] ⟨"Elektro", 25, 12, 0, 1/200, 0, 0, "Strom"⟩
    (by decide)).2.2.2.1
